import Mathlib

/-!
Verification of the stream-validity prober of the radio-browser application
(source file `src/StreamChecker.py`, class `StreamChecker`).

The Python code is shallowly embedded: HTTP transport is an oracle
(`Network`) giving the outcome of the single HEAD request, the single GET
request and the single bounded body read a probe can perform; Python
exceptions raised by the transport are the `Except.error` arm of that
oracle, and each `try/except` of the source becomes a `match` on it.
Header text is `String`, body bytes are `List Nat` (byte values).
The list of network operations actually consulted is returned alongside
the result so that "no network call is performed" statements can be made.
-/

namespace StreamChecker

/-! ### Python string/bytes primitives -/

/-- Boolean prefix test on lists (needle first). -/
def isPrefixL {α : Type} [DecidableEq α] : List α → List α → Bool
  | [], _ => true
  | _ :: _, [] => false
  | a :: n, b :: h => a = b && isPrefixL n h

/-- Boolean substring (contiguous sublist) test, needle first: Python's
`needle in haystack`. -/
def isInfixL {α : Type} [DecidableEq α] (n : List α) : List α → Bool
  | [] => isPrefixL n []
  | b :: h => isPrefixL n (b :: h) || isInfixL n h

/-- ASCII lower-casing of one character, as Python `str.lower` acts on the
ASCII range (all header strings involved are ASCII). -/
def charLower (c : Char) : Char :=
  if 65 ≤ c.toNat ∧ c.toNat ≤ 90 then Char.ofNat (c.toNat + 32) else c

/-- Python `str.lower` (ASCII range). -/
def strLower (s : String) : String := String.mk (s.data.map charLower)

/-- Python `needle in haystack` on strings. -/
def containsStr (hay needle : String) : Bool := isInfixL needle.data hay.data

/-- Python `haystack.endswith(needle)`. -/
def endsWithStr (hay needle : String) : Bool :=
  isPrefixL needle.data.reverse hay.data.reverse

/-- Python `bytes.lower` on one byte. -/
def lowerByte (b : Nat) : Nat := if 65 ≤ b ∧ b ≤ 90 then b + 32 else b

/-- Python `bytes.lower`. -/
def lowerB (l : List Nat) : List Nat := l.map lowerByte

/-- The six ASCII whitespace bytes stripped by Python `bytes.strip()`. -/
def isSpaceByte (b : Nat) : Bool :=
  b = 32 || b = 9 || b = 10 || b = 13 || b = 11 || b = 12

/-- Python `bytes.strip()` (strip ASCII whitespace from both ends). -/
def stripB (l : List Nat) : List Nat :=
  ((l.dropWhile (fun b => isSpaceByte b)).reverse.dropWhile
    (fun b => isSpaceByte b)).reverse

/-- Byte values of an ASCII string literal (Python `b"..."`). -/
def bytesOf (s : String) : List Nat := s.data.map Char.toNat

/-! ### Data model -/

/-- The dictionary returned by `StreamChecker.is_valid_stream`
(keys `valid`, `reason`, `content_type`, `status_code`, `stream_type`);
the spec calls it ProbeResult and its last field `stream_kind`, an enum
rendered in the source by the fixed strings produced by
`_categorize_stream` and the ICY branches. -/
structure ProbeResult where
  valid : Bool
  reason : String
  content_type : Option String
  status_code : Option Nat
  stream_type : Option String
deriving DecidableEq, Repr

/-- The partial result dictionary built by `_check_with_head` /
`_check_with_get` (same keys minus `valid`). -/
structure PhaseResult where
  reason : String
  content_type : Option String
  status_code : Option Nat
  stream_type : Option String
deriving DecidableEq, Repr

/-- The `requests` exceptions distinguished by `is_valid_stream`'s
handlers, each carrying its `str(e)` text. -/
inductive ExnKind where
  | timeout (msg : String)
  | tooManyRedirects (msg : String)
  | connectionError (msg : String)
  | requestError (msg : String)
  | other (msg : String)
deriving DecidableEq, Repr

/-- Python `str(e)`. -/
def exnStr : ExnKind → String
  | .timeout m | .tooManyRedirects m | .connectionError m
  | .requestError m | .other m => m

/-- An HTTP response as the prober reads it: status code, the
`Content-Type` header (`headers.get('Content-Type', '')`, so `""` when
absent), and presence of the two ICY headers it inspects. -/
structure Response where
  status : Nat
  contentType : String
  icyName : Bool
  icyMetaint : Bool
deriving DecidableEq, Repr

/-- `'icy-name' in response.headers or 'icy-metaint' in response.headers`. -/
def hasIcy (r : Response) : Bool := r.icyName || r.icyMetaint

/-- Outcome of the single bounded chunk read of `_verify_stream_data`:
a chunk was produced, or the 5-second future timed out, or the read raised. -/
inductive ReadOutcome where
  | ok (chunk : List Nat)
  | timedOut
  | raised
deriving DecidableEq, Repr

/-- Transport oracle for one probe invocation: result of the HEAD request,
of the GET request, and of the body read, each as the source observes it.
An `Except.error` arm is the transport raising that exception. -/
structure Network where
  head : Except ExnKind Response
  get : Except ExnKind Response
  read : ReadOutcome

/-- Network operations a probe can perform, recorded as a trace. -/
inductive NetOp where
  | headReq
  | getReq
  | bodyRead
deriving DecidableEq, Repr

/-- Result of `urllib.parse.urlparse` on the probed URL: the components
the checker reads. -/
structure ParsedUrl where
  scheme : String
  netloc : String
  path : String
deriving DecidableEq, Repr

/-! ### Constants of the class -/

/-- `StreamChecker.STREAM_CONTENT_TYPES` (a Python set; listed in source
order — only membership is ever used). -/
def STREAM_CONTENT_TYPES : List String :=
  ["audio/mpeg", "audio/mp3", "audio/aac", "audio/aacp",
   "audio/ogg", "audio/opus", "audio/flac", "audio/wav",
   "audio/x-wav", "audio/wave", "audio/vnd.wave",
   "audio/mp4", "audio/x-m4a", "audio/webm",
   "video/mp4", "video/webm", "video/ogg", "video/x-flv",
   "video/mp2t", "video/3gpp", "video/quicktime",
   "application/vnd.apple.mpegurl", "application/x-mpegurl",
   "application/dash+xml", "application/octet-stream"]

/-- `StreamChecker.STREAM_EXTENSIONS` (a Python set; listed in source
order — no extension is a suffix of another, so at most one matches and
iteration order is immaterial). -/
def STREAM_EXTENSIONS : List String :=
  [".m3u", ".m3u8", ".pls", ".asx", ".xspf",
   ".mp3", ".aac", ".ogg", ".flac", ".wav",
   ".mp4", ".webm", ".flv", ".ts", ".m4a"]

/-! ### Helper methods -/

/-- `StreamChecker._is_valid_url`: scheme is http/https and netloc
non-empty (`urlparse` on a `str` does not raise, so the `except` arm
returning `False` is never taken). -/
def is_valid_url (p : ParsedUrl) : Bool :=
  decide ((p.scheme = "http" ∨ p.scheme = "https") ∧ p.netloc ≠ "")

/-- The `if/elif` ladder inside `_check_url_extension`'s loop: the kind
string returned for one matched extension, `none` for `.asx`/`.xspf`
(which match the loop but fall through every branch). -/
def ext_kind (ext : String) : Option String :=
  if ext = ".m3u" ∨ ext = ".m3u8" then some "HLS playlist"
  else if ext = ".pls" then some "PLS playlist"
  else if ext = ".mp3" ∨ ext = ".aac" ∨ ext = ".ogg" ∨ ext = ".flac"
      ∨ ext = ".wav" ∨ ext = ".m4a" then some "Audio stream"
  else if ext = ".mp4" ∨ ext = ".webm" ∨ ext = ".flv" ∨ ext = ".ts" then
    some "Video stream"
  else none

/-- Loop body of `_check_url_extension`: first extension that matches the
(lower-cased) path and yields a kind; a match yielding no kind lets the
loop continue. -/
def ext_scan (path : String) : List String → Option String
  | [] => none
  | e :: rest =>
    if endsWithStr path e then
      match ext_kind e with
      | some k => some k
      | none => ext_scan path rest
    else ext_scan path rest

/-- `StreamChecker._check_url_extension`. -/
def check_url_extension (p : ParsedUrl) : Option String :=
  ext_scan (strLower p.path) STREAM_EXTENSIONS

/-- `StreamChecker._categorize_stream`. -/
def categorize_stream (content_type : String) : String :=
  if containsStr content_type "audio" then "Audio stream"
  else if containsStr content_type "video" then "Video stream"
  else if containsStr content_type "mpegurl" || containsStr content_type "m3u" then
    "HLS playlist"
  else if containsStr content_type "dash" then "DASH stream"
  else "Unknown stream type"

/-- The loop `for stream_type in self.STREAM_CONTENT_TYPES: if stream_type
in content_type`, reduced to an existence test: every match makes the same
branch fire with the same resulting record, so only whether some element
matches is observable. -/
def content_type_matches (content_type : String) : Bool :=
  STREAM_CONTENT_TYPES.any (fun t => containsStr content_type t)

/-- `StreamChecker._verify_stream_data`'s rejection test on a non-empty
chunk: `chunk.strip().startswith(b"<") or b"<!DOCTYPE html" in
chunk[:200].lower()` or `b"html" in chunk[:200].lower()` (byte 60 is
`<`). -/
def rejects_markup (chunk : List Nat) : Bool :=
  isPrefixL [60] (stripB chunk)
    || isInfixL (bytesOf "<!DOCTYPE html") (lowerB (chunk.take 200))
    || isInfixL (bytesOf "html") (lowerB (chunk.take 200))

/-- `StreamChecker._verify_stream_data`: a timed-out or raising read and
an empty chunk fail; a non-empty chunk succeeds unless rejected as
markup. -/
def verify_stream_data (ro : ReadOutcome) : Bool :=
  match ro with
  | .timedOut => false
  | .raised => false
  | .ok chunk =>
    if chunk.isEmpty then false
    else !(rejects_markup chunk)

/-! ### The two probe phases -/

/-- `StreamChecker._check_with_head`. The `except Exception` clause at its
end catches every transport error, so this phase is total. -/
def check_with_head (net : Network) : Bool × PhaseResult :=
  match net.head with
  | .error e =>
    (false, { reason := "HEAD request failed: " ++ exnStr e,
              content_type := none, status_code := none, stream_type := none })
  | .ok r =>
    if r.status ≠ 200 then
      (false, { reason := "HTTP " ++ toString r.status,
                content_type := none, status_code := some r.status,
                stream_type := none })
    else
      let ct := strLower r.contentType
      if content_type_matches ct then
        (true, { reason := "Valid stream (HEAD check)",
                 content_type := some ct, status_code := some r.status,
                 stream_type := some (categorize_stream ct) })
      else if hasIcy r then
        (true, { reason := "Valid ICY stream",
                 content_type := some ct, status_code := some r.status,
                 stream_type := some "ICY/Shoutcast stream" })
      else
        (false, { reason := "Content type not recognized as stream",
                  content_type := some ct, status_code := some r.status,
                  stream_type := none })

/-- `StreamChecker._check_with_get` (also total, same catch-all). Besides
the phase verdict and record it reports whether `_verify_stream_data` was
invoked, i.e. whether body bytes were read. -/
def check_with_get (net : Network) (check_playability : Bool) :
    (Bool × PhaseResult) × Bool :=
  match net.get with
  | .error e =>
    ((false, { reason := "GET request failed: " ++ exnStr e,
               content_type := none, status_code := none,
               stream_type := none }), false)
  | .ok r =>
    if r.status ≠ 200 then
      ((false, { reason := "HTTP " ++ toString r.status,
                 content_type := none, status_code := some r.status,
                 stream_type := none }), false)
    else
      let ct := strLower r.contentType
      if hasIcy r then
        ((true, { reason := "Valid ICY stream",
                  content_type := some ct, status_code := some r.status,
                  stream_type := some "ICY/Shoutcast stream" }), false)
      else if content_type_matches ct then
        if check_playability then
          if verify_stream_data net.read then
            ((true, { reason := "Valid and active stream",
                      content_type := some ct, status_code := some r.status,
                      stream_type := some (categorize_stream ct) }), true)
          else
            ((false, { reason := "Stream not providing data",
                       content_type := some ct, status_code := some r.status,
                       stream_type := some (categorize_stream ct) }), true)
        else
          ((true, { reason := "Valid stream (content type)",
                    content_type := some ct, status_code := some r.status,
                    stream_type := some (categorize_stream ct) }), false)
      else
        if check_playability && verify_stream_data net.read then
          ((true, { reason := "Active stream (unrecognized type)",
                    content_type := some ct, status_code := some r.status,
                    stream_type := some "Unknown stream type" }), true)
        else
          ((false, { reason := "Not recognized as a valid stream",
                     content_type := some ct, status_code := some r.status,
                     stream_type := none }), check_playability)

/-! ### The probe -/

/-- The `try` block of `is_valid_stream` (everything after the URL-format
check), paired with the trace of network operations performed. Both phase
functions are total, so the block always returns; `result.update(...)`
overwrites all four phase fields, hence the final record is the phase
record plus the `valid` flag, and the advisory extension hint survives
only on the (unreachable) exception path. -/
def probe_body (p : ParsedUrl) (net : Network) (check_playability : Bool) :
    Except ExnKind (ProbeResult × List NetOp) :=
  if is_valid_url p then
    let hd := check_with_head net
    if hd.1 then
      .ok ({ valid := true, reason := hd.2.reason,
             content_type := hd.2.content_type,
             status_code := hd.2.status_code,
             stream_type := hd.2.stream_type }, [.headReq])
    else
      let gt := check_with_get net check_playability
      .ok ({ valid := gt.1.1, reason := gt.1.2.reason,
             content_type := gt.1.2.content_type,
             status_code := gt.1.2.status_code,
             stream_type := gt.1.2.stream_type },
           [.headReq, .getReq] ++ (if gt.2 then [.bodyRead] else []))
  else
    .ok ({ valid := false, reason := "Invalid URL format",
           content_type := none, status_code := none,
           stream_type := none }, [])

/-- The reason strings installed by `is_valid_stream`'s `except` clauses. -/
def handler_reason (e : ExnKind) : String :=
  match e with
  | .timeout _ => "Request timeout"
  | .tooManyRedirects _ => "Too many redirects"
  | .connectionError _ => "Connection error"
  | .requestError m => "Request error: " ++ m
  | .other m => "Unexpected error: " ++ m

/-- `StreamChecker.is_valid_stream` — the spec's `probe`. On the exception
path the accumulated result still holds the extension hint, as in the
source; that path is unreachable because `probe_body` never errors. -/
def is_valid_stream (p : ParsedUrl) (net : Network)
    (check_playability : Bool) : ProbeResult :=
  match probe_body p net check_playability with
  | .ok (r, _) => r
  | .error e =>
    { valid := false, reason := handler_reason e, content_type := none,
      status_code := none, stream_type := check_url_extension p }

/-- The network operations performed by one `is_valid_stream` call. -/
def probe_ops (p : ParsedUrl) (net : Network)
    (check_playability : Bool) : List NetOp :=
  match probe_body p net check_playability with
  | .ok (_, t) => t
  | .error _ => []

/-! ### Batch checking -/

/-- Per-URL behaviour of the thread pool in `check_multiple_streams`:
the transport each URL's probe sees, how long the probe takes, and
whether obtaining the future's result raises something other than the
deadline (`str(e)` given). -/
structure BatchBehavior where
  netOf : ParsedUrl → Network
  timeOf : ParsedUrl → Nat
  raiseOf : ParsedUrl → Option String

/-- The synthetic failure record built in `check_multiple_streams`'s
`except` clause. -/
def check_failed (msg : String) : ProbeResult :=
  { valid := false, reason := "Check failed: " ++ msg,
    content_type := none, status_code := none, stream_type := none }

/-- One entry of the result dictionary: `future.result(timeout=self.timeout
+ 5)` either yields the probe's result in time, or raises
`TimeoutError` (whose `str` is empty) past the deadline, or raises the
scheduling error; both raises land in the `except` clause. -/
def future_entry (timeout : Nat) (b : BatchBehavior)
    (check_playability : Bool) (u : ParsedUrl) : ProbeResult :=
  match b.raiseOf u with
  | some m => check_failed m
  | none =>
    if b.timeOf u ≤ timeout + 5 then
      is_valid_stream u (b.netOf u) check_playability
    else
      check_failed ""

/-- Python dict assignment `d[k] = v`: replace in place or append. -/
def dinsert (l : List (ParsedUrl × ProbeResult)) (k : ParsedUrl)
    (v : ProbeResult) : List (ParsedUrl × ProbeResult) :=
  match l with
  | [] => [(k, v)]
  | (k₀, v₀) :: rest =>
    if k₀ = k then (k, v) :: rest else (k₀, v₀) :: dinsert rest k v

/-- Python dict lookup. -/
def dlookup (l : List (ParsedUrl × ProbeResult)) (k : ParsedUrl) :
    Option ProbeResult :=
  match l with
  | [] => none
  | (k₀, v) :: rest => if k₀ = k then some v else dlookup rest k

/-- `StreamChecker.check_multiple_streams` — the spec's `probe_many`:
one future per URL, each assigned into the results dictionary. -/
def check_multiple_streams (timeout : Nat) (urls : List ParsedUrl)
    (b : BatchBehavior) (check_playability : Bool) :
    List (ParsedUrl × ProbeResult) :=
  urls.foldl
    (fun acc u => dinsert acc u (future_entry timeout b check_playability u))
    []

/-! ### The spec's sniff-rejection predicate, for comparison -/

/-- Modelled from the spec's words (sniff step): a non-empty chunk is
rejected when, case-insensitively, its leading bytes after stripping
whitespace start with `<`, or `<!doctype html` or the substring `html`
occurs within the first 200 bytes. Stated for comparison with
`rejects_markup`, the source's test (whose `b"<!DOCTYPE html"` needle has
upper-case bytes). -/
def sniff_spec_rejects (chunk : List Nat) : Bool :=
  isPrefixL [60] (stripB chunk)
    || isInfixL (bytesOf "<!doctype html") (lowerB (chunk.take 200))
    || isInfixL (bytesOf "html") (lowerB (chunk.take 200))

/-! ### Concrete fixtures used by witnesses and counterexamples -/

/-- A well-formed http URL. -/
def urlHttp : ParsedUrl :=
  { scheme := "http", netloc := "radio.example", path := "/stream" }

/-- A URL whose parse yields a non-HTTP(S) scheme. -/
def urlFtp : ParsedUrl :=
  { scheme := "ftp", netloc := "radio.example", path := "/stream" }

/-- A 200 response carrying both a recognized streaming Content-Type and
an ICY header. -/
def respIcyAudio : Response :=
  { status := 200, contentType := "audio/mpeg", icyName := true,
    icyMetaint := false }

/-- Endpoint answering HEAD with `respIcyAudio`. -/
def netIcyAudioHead : Network :=
  { head := .ok respIcyAudio, get := .error (.other "unused"),
    read := .raised }

/-- The same endpoint when the server rejects HEAD (405) but serves the
identical headers on GET. -/
def netIcyAudioGet : Network :=
  { head := .ok { status := 405, contentType := "", icyName := false,
                  icyMetaint := false },
    get := .ok respIcyAudio, read := .ok [73, 68, 51] }

/-- Transport failing in both phases. -/
def netAllErr : Network :=
  { head := .error (.timeout "timed out"),
    get := .error (.connectionError "connection refused"), read := .raised }

/-- HEAD answers 200 with `audio/mpeg` and no ICY headers. -/
def netHeadAudio : Network :=
  { head := .ok { status := 200, contentType := "audio/mpeg",
                  icyName := false, icyMetaint := false },
    get := .error (.other "unused"), read := .raised }

/-- HEAD 404; GET 200 `audio/aac` delivering the bytes `ID3`. -/
def netGetAac : Network :=
  { head := .ok { status := 404, contentType := "", icyName := false,
                  icyMetaint := false },
    get := .ok { status := 200, contentType := "audio/aac",
                 icyName := false, icyMetaint := false },
    read := .ok [73, 68, 51] }

/-- HEAD 404; GET 200 `audio/mpeg` delivering the bytes `ID3`. -/
def netGetAudioOk : Network :=
  { head := .ok { status := 404, contentType := "", icyName := false,
                  icyMetaint := false },
    get := .ok { status := 200, contentType := "audio/mpeg",
                 icyName := false, icyMetaint := false },
    read := .ok [73, 68, 51] }

/-- HEAD 404; GET 200 `audio/mpeg` but the body read times out. -/
def netSniffFail : Network :=
  { head := .ok { status := 404, contentType := "", icyName := false,
                  icyMetaint := false },
    get := .ok { status := 200, contentType := "audio/mpeg",
                 icyName := false, icyMetaint := false },
    read := .timedOut }

/-- HEAD 404; GET 200 `text/html` serving an HTML document. -/
def netHtml : Network :=
  { head := .ok { status := 404, contentType := "", icyName := false,
                  icyMetaint := false },
    get := .ok { status := 200, contentType := "text/html",
                 icyName := false, icyMetaint := false },
    read := .ok (bytesOf "<!DOCTYPE html><html><body>err</body></html>") }

/-- URL of a batch probe that exceeds its deadline. -/
def urlSlow : ParsedUrl :=
  { scheme := "http", netloc := "radio.example", path := "/slow" }

/-- URL of a batch probe whose scheduling raises. -/
def urlBad : ParsedUrl :=
  { scheme := "http", netloc := "radio.example", path := "/bad" }

/-- Batch behaviour: every probe sees `netHeadAudio`; `urlSlow` takes 100
seconds, `urlBad` raises. -/
def bbFix : BatchBehavior :=
  { netOf := fun _ => netHeadAudio,
    timeOf := fun u => if u = urlSlow then 100 else 0,
    raiseOf := fun u => if u = urlBad then some "boom" else none }

/-! ### Helper lemmas about the string/bytes primitives -/

theorem isPrefixL_iff {α : Type} [DecidableEq α] (n h : List α) :
    isPrefixL n h = true ↔ n <+: h := by
  induction n generalizing h with
  | nil => simp [isPrefixL]
  | cons a t ih =>
    cases h with
    | nil => simp [isPrefixL]
    | cons b h₂ => simp [isPrefixL, List.cons_prefix_cons, ih]

theorem isInfixL_iff {α : Type} [DecidableEq α] (n h : List α) :
    isInfixL n h = true ↔ n <:+: h := by
  induction h with
  | nil => simp [isInfixL, isPrefixL_iff]
  | cons b t ih =>
    rw [isInfixL, List.infix_cons_iff, Bool.or_eq_true, isPrefixL_iff, ih]

/-- `bytes.lower` never produces an upper-case ASCII byte. -/
theorem lowerByte_ne_upper (b c : Nat) (hc : 65 ≤ c ∧ c ≤ 90) :
    lowerByte b ≠ c := by
  unfold lowerByte; split_ifs with h <;> omega

/-- The source's `b"<!DOCTYPE html"` needle can never occur in a
lower-cased haystack: the test is dead. -/
theorem docUpper_never_matches (l : List Nat) :
    isInfixL (bytesOf "<!DOCTYPE html") (lowerB l) = false := by
  cases hinf : isInfixL (bytesOf "<!DOCTYPE html") (lowerB l) with
  | false => rfl
  | true =>
    exfalso
    have hsub := ((isInfixL_iff _ _).mp hinf).subset
    have h68 : (68 : Nat) ∈ bytesOf "<!DOCTYPE html" := by decide
    have hmem := hsub h68
    rw [lowerB, List.mem_map] at hmem
    obtain ⟨b, _, hb⟩ := hmem
    exact lowerByte_ne_upper b 68 (by omega) hb

/-- An occurrence of `<!doctype html` is in particular an occurrence of
`html`. -/
theorem doctype_infix_html {h : List Nat}
    (hd : isInfixL (bytesOf "<!doctype html") h = true) :
    isInfixL (bytesOf "html") h = true := by
  rw [isInfixL_iff] at hd ⊢
  have hh : bytesOf "html" <:+: bytesOf "<!doctype html" :=
    (isInfixL_iff _ _).mp (by decide)
  exact hh.trans hd

/-- The source's markup test and the spec's wording agree on every chunk:
the dead upper-case needle is compensated by the `html` substring test,
which subsumes the case-insensitive doctype test. -/
theorem rejects_markup_eq_spec (chunk : List Nat) :
    rejects_markup chunk = sniff_spec_rejects chunk := by
  unfold rejects_markup sniff_spec_rejects
  rw [docUpper_never_matches]
  cases hd : isInfixL (bytesOf "<!doctype html") (lowerB (chunk.take 200)) with
  | false => simp
  | true => rw [doctype_infix_html hd]; simp

theorem dropWhile_append_last (p : Nat → Bool) (l : List Nat) (a : Nat)
    (ha : p a = false) :
    ∃ l₂, (l ++ [a]).dropWhile p = l₂ ++ [a] := by
  induction l with
  | nil => exact ⟨[], by simp [List.dropWhile_cons, ha]⟩
  | cons x t ih =>
    by_cases hx : p x
    · obtain ⟨l₂, h₂⟩ := ih
      exact ⟨l₂, by simp [List.dropWhile_cons, hx, h₂]⟩
    · exact ⟨x :: t, by simp [List.dropWhile_cons, hx]⟩

/-- A chunk whose first byte is `<` still starts with `<` after
`strip()`. -/
theorem stripB_cons_lt (t : List Nat) :
    isPrefixL [60] (stripB (60 :: t)) = true := by
  unfold stripB
  have h₁ : (60 :: t).dropWhile (fun b => isSpaceByte b) = 60 :: t := by
    simp [List.dropWhile_cons, isSpaceByte]
  rw [h₁, List.reverse_cons]
  obtain ⟨l₂, h₂⟩ :=
    dropWhile_append_last (fun b => isSpaceByte b) t.reverse 60
      (by simp [isSpaceByte])
  rw [h₂, List.reverse_append]
  simp [isPrefixL]

/-! ### Helper lemmas about the dictionary and the phases -/

theorem dlookup_dinsert (l : List (ParsedUrl × ProbeResult)) (k : ParsedUrl)
    (v : ProbeResult) (k' : ParsedUrl) :
    dlookup (dinsert l k v) k' = if k = k' then some v else dlookup l k' := by
  induction l with
  | nil => simp [dinsert, dlookup]
  | cons p rest ih =>
    obtain ⟨k₀, v₀⟩ := p
    by_cases h₀ : k₀ = k
    · subst h₀
      simp only [dinsert, if_pos rfl, dlookup]
      split_ifs <;> rfl
    · simp only [dinsert, if_neg h₀, dlookup, ih]
      split_ifs with a c <;> first | rfl | exact absurd (a.trans c.symm) h₀

theorem check_multiple_lookup (timeout : Nat) (b : BatchBehavior)
    (cp : Bool) (u : ParsedUrl) :
    ∀ (urls : List ParsedUrl) (acc : List (ParsedUrl × ProbeResult)),
      dlookup
          (urls.foldl
            (fun acc₂ v => dinsert acc₂ v (future_entry timeout b cp v)) acc)
          u
        = if u ∈ urls then some (future_entry timeout b cp u)
          else dlookup acc u := by
  intro urls
  induction urls with
  | nil => intro acc; simp
  | cons x rest ih =>
    intro acc
    rw [List.foldl_cons, ih]
    by_cases hm : u ∈ rest
    · rw [if_pos hm, if_pos (List.mem_cons_of_mem x hm)]
    · by_cases hx : x = u
      · subst hx
        rw [if_neg hm, dlookup_dinsert, if_pos rfl,
          if_pos (List.mem_cons_self x rest)]
      · have hnm : u ∉ x :: rest := by
          intro hmem
          rcases List.mem_cons.mp hmem with h | h
          · exact hx h.symm
          · exact hm h
        rw [if_neg hm, dlookup_dinsert, if_neg hx, if_neg hnm]

/-- A HEAD phase that succeeds always sets a stream type. -/
theorem head_success_stream_type (net : Network)
    (h : (check_with_head net).1 = true) :
    (check_with_head net).2.stream_type.isSome = true := by
  rcases hh : net.head with e | r
  · simp only [check_with_head, hh] at h
    exact Bool.noConfusion h
  · simp only [check_with_head, hh] at h ⊢
    split_ifs at h ⊢ <;> simp_all

/-- A GET phase that succeeds always sets a stream type. -/
theorem get_success_stream_type (net : Network) (cp : Bool)
    (h : (check_with_get net cp).1.1 = true) :
    (check_with_get net cp).1.2.stream_type.isSome = true := by
  rcases hg : net.get with e | r
  · simp only [check_with_get, hg] at h
    exact Bool.noConfusion h
  · simp only [check_with_get, hg] at h ⊢
    split_ifs at h ⊢ <;> simp_all

/-- A GET phase against a non-ICY response whose data sniff fails never
succeeds. -/
theorem get_fails_without_data (net : Network) (r : Response)
    (hg : net.get = .ok r) (hicy : hasIcy r = false)
    (hv : verify_stream_data net.read = false) :
    (check_with_get net true).1.1 = false := by
  simp only [check_with_get, hg]
  split_ifs <;> simp_all

/-! ### Claim theorems -/

/-- Claim C1: for every URL whose parse does not yield scheme http or https
together with a non-empty host, the probe returns valid=false with
reason "Invalid URL format", all other fields absent, and performs no
network call. -/
theorem claim_C1_url_gate (p : ParsedUrl) (net : Network) (cp : Bool)
    (h : is_valid_url p = false) :
    is_valid_stream p net cp =
      { valid := false, reason := "Invalid URL format", content_type := none,
        status_code := none, stream_type := none } ∧
    probe_ops p net cp = [] := by
  constructor <;> simp [is_valid_stream, probe_ops, probe_body, h]

theorem claim_C1_url_gate_witness :
    is_valid_stream urlFtp netAllErr true =
      { valid := false, reason := "Invalid URL format", content_type := none,
        status_code := none, stream_type := none } ∧
    probe_ops urlFtp netAllErr true = [] :=
  claim_C1_url_gate urlFtp netAllErr true (by decide)

/-- Claim C2, counterexample: a HEAD response with status 200, an ICY
header (`icy-name`), and the recognized Content-Type `audio/mpeg` makes
the probe succeed with stream kind "Audio stream", not the ICY kind —
`_check_with_head` tests the Content-Type before the ICY headers, so the
claimed "IcyShoutcast regardless of Content-Type" fails. -/
theorem claim_C2_counterexample :
    hasIcy respIcyAudio = true ∧
    (is_valid_stream urlHttp netIcyAudioHead true).valid = true ∧
    (is_valid_stream urlHttp netIcyAudioHead true).stream_type
      = some "Audio stream" ∧
    (is_valid_stream urlHttp netIcyAudioHead true).stream_type
      ≠ some "ICY/Shoutcast stream" := by
  refine ⟨?_, ?_, ?_, ?_⟩ <;> decide

/-- Claim C2, amended: a 200 HEAD response with an ICY header makes the
probe succeed; the stream kind is "ICY/Shoutcast stream" when the
Content-Type matches no recognized streaming type, and is derived from
the Content-Type otherwise. -/
theorem claim_C2_amended (p : ParsedUrl) (net : Network) (cp : Bool)
    (ct : String) (iN iM : Bool) (hp : is_valid_url p = true)
    (hh : net.head = .ok { status := 200, contentType := ct,
                           icyName := iN, icyMetaint := iM })
    (hicy : (iN || iM) = true) :
    (is_valid_stream p net cp).valid = true ∧
    (is_valid_stream p net cp).stream_type =
      some (if content_type_matches (strLower ct) then
              categorize_stream (strLower ct)
            else "ICY/Shoutcast stream") := by
  have hi : hasIcy ⟨200, ct, iN, iM⟩ = true := by
    simp [hasIcy, hicy]
  by_cases hm : content_type_matches (strLower ct) = true
  · constructor <;>
      simp [is_valid_stream, probe_body, check_with_head, hp, hh, hm]
  · have hm2 : content_type_matches (strLower ct) = false := by
      simpa using hm
    constructor <;>
      simp [is_valid_stream, probe_body, check_with_head, hp, hh, hm2, hi]

theorem claim_C2_amended_witness :
    (is_valid_stream urlHttp netIcyAudioHead true).valid = true ∧
    (is_valid_stream urlHttp netIcyAudioHead true).stream_type =
      some (if content_type_matches (strLower "audio/mpeg") then
              categorize_stream (strLower "audio/mpeg")
            else "ICY/Shoutcast stream") :=
  claim_C2_amended urlHttp netIcyAudioHead true "audio/mpeg" true false
    (by decide) rfl (by decide)

/-- Claim C3: a 200 HEAD response whose Content-Type contains a recognized
streaming MIME type makes the probe succeed immediately with reason
"Valid stream (HEAD check)", the lower-cased Content-Type, status 200 and
the categorization-rule stream kind, and the only network operation
performed is the HEAD request — no GET, no body read. -/
theorem claim_C3_head_success (p : ParsedUrl) (net : Network) (cp : Bool)
    (ct : String) (iN iM : Bool) (hp : is_valid_url p = true)
    (hh : net.head = .ok { status := 200, contentType := ct,
                           icyName := iN, icyMetaint := iM })
    (hm : content_type_matches (strLower ct) = true) :
    is_valid_stream p net cp =
      { valid := true, reason := "Valid stream (HEAD check)",
        content_type := some (strLower ct), status_code := some 200,
        stream_type := some (categorize_stream (strLower ct)) } ∧
    probe_ops p net cp = [.headReq] := by
  constructor <;>
    simp [is_valid_stream, probe_ops, probe_body, check_with_head, hp, hh, hm]

theorem claim_C3_head_success_witness :
    is_valid_stream urlHttp netHeadAudio true =
      { valid := true, reason := "Valid stream (HEAD check)",
        content_type := some "audio/mpeg", status_code := some 200,
        stream_type := some "Audio stream" } ∧
    probe_ops urlHttp netHeadAudio true = [.headReq] := by
  obtain ⟨h₁, h₂⟩ := claim_C3_head_success urlHttp netHeadAudio true
    "audio/mpeg" false false (by decide) rfl (by decide)
  refine ⟨?_, h₂⟩
  rw [h₁]
  decide

/-- Claim C4: a failing HEAD (non-200 status) falls through to the GET
phase; when GET answers 200 with a recognized Content-Type, no ICY
headers, and the sniff reads a non-empty non-markup chunk, the probe
succeeds with reason "Valid and active stream". -/
theorem claim_C4_head_falls_through (p : ParsedUrl) (net : Network)
    (r₁ : Response) (ct : String) (chunk : List Nat)
    (hp : is_valid_url p = true)
    (hh : net.head = .ok r₁) (hns : r₁.status ≠ 200)
    (hg : net.get = .ok { status := 200, contentType := ct,
                          icyName := false, icyMetaint := false })
    (hm : content_type_matches (strLower ct) = true)
    (hr : net.read = .ok chunk) (hne : chunk ≠ [])
    (hmk : rejects_markup chunk = false) :
    (is_valid_stream p net true).valid = true ∧
    (is_valid_stream p net true).reason = "Valid and active stream" := by
  have hv : verify_stream_data net.read = true := by
    rw [hr]
    cases chunk with
    | nil => exact absurd rfl hne
    | cons a t => simp [verify_stream_data, hmk]
  have hhead : (check_with_head net).1 = false := by
    simp [check_with_head, hh, hns]
  constructor <;>
    simp [is_valid_stream, probe_body, check_with_get, hp, hhead, hg, hm,
      hv, hasIcy]

theorem claim_C4_head_falls_through_witness :
    (is_valid_stream urlHttp netGetAac true).valid = true ∧
    (is_valid_stream urlHttp netGetAac true).reason
      = "Valid and active stream" :=
  claim_C4_head_falls_through urlHttp netGetAac
    { status := 404, contentType := "", icyName := false, icyMetaint := false }
    "audio/aac" [73, 68, 51] (by decide) rfl (by decide) rfl (by decide)
    rfl (by decide) (by decide)

/-- Claim C5: the data sniff fails on an empty read; a non-empty chunk
fails exactly when the spec's markup predicate holds (stripped chunk
starts with `<`, or `<!doctype html` or `html` occurs case-insensitively
in the first 200 bytes); and in particular a probe whose GET body starts
with `<!DOCTYPE html` comes back invalid. -/
theorem claim_C5_sniff (chunk : List Nat) (hne : chunk ≠ []) :
    verify_stream_data (.ok []) = false ∧
    (verify_stream_data (.ok chunk) = false ↔
      sniff_spec_rejects chunk = true) ∧
    (∀ (p : ParsedUrl) (net : Network) (r : Response) (c₂ : List Nat),
      is_valid_url p = true → (check_with_head net).1 = false →
      net.get = .ok r → hasIcy r = false → net.read = .ok c₂ →
      isPrefixL (bytesOf "<!DOCTYPE html") c₂ = true →
      (is_valid_stream p net true).valid = false) := by
  refine ⟨rfl, ?_, ?_⟩
  · cases chunk with
    | nil => exact absurd rfl hne
    | cons a t =>
      rw [← rejects_markup_eq_spec]
      simp only [verify_stream_data, List.isEmpty_cons, if_false,
        Bool.false_eq_true, ite_false]
      cases rejects_markup (a :: t) <;> simp
  · intro p net r c₂ hp hhead hg hicy hr hpre
    have hdoc : bytesOf "<!DOCTYPE html" = 60 :: bytesOf "!DOCTYPE html" := by
      decide
    have h60 : ∃ t, c₂ = 60 :: t := by
      cases c₂ with
      | nil => exact absurd hpre (by decide)
      | cons a t =>
        rw [hdoc] at hpre
        simp only [isPrefixL, Bool.and_eq_true, decide_eq_true_eq] at hpre
        exact ⟨t, by rw [hpre.1]⟩
    obtain ⟨t, ht⟩ := h60
    have hrej : rejects_markup (60 :: t) = true := by
      rw [rejects_markup, stripB_cons_lt]
      simp
    have hv : verify_stream_data net.read = false := by
      rw [hr, ht]
      simp [verify_stream_data, hrej]
    have hgf := get_fails_without_data net r hg hicy hv
    simp [is_valid_stream, probe_body, hp, hhead, hgf]

theorem claim_C5_sniff_witness :
    (verify_stream_data (.ok (bytesOf "ID3x")) = false ↔
      sniff_spec_rejects (bytesOf "ID3x") = true) ∧
    (is_valid_stream urlHttp netHtml true).valid = false := by
  obtain ⟨-, h₂, h₃⟩ := claim_C5_sniff (bytesOf "ID3x") (by decide)
  refine ⟨h₂, ?_⟩
  exact h₃ urlHttp netHtml
    { status := 200, contentType := "text/html", icyName := false,
      icyMetaint := false }
    (bytesOf "<!DOCTYPE html><html><body>err</body></html>")
    (by decide) (by decide) rfl (by decide) rfl (by decide)

/-- The `try` block of `is_valid_stream` always returns normally: no
exception of the transport escapes the phase handlers. -/
theorem probe_body_ok (p : ParsedUrl) (net : Network) (cp : Bool) :
    probe_body p net cp =
      Except.ok (is_valid_stream p net cp, probe_ops p net cp) := by
  cases hb : probe_body p net cp with
  | ok pr => simp [is_valid_stream, probe_ops, hb]
  | error e =>
    exfalso
    rw [probe_body] at hb
    by_cases hv : is_valid_url p = true <;>
      rcases h₁ : (check_with_head net).1 <;>
        simp [hv, h₁] at hb

/-- Claim C6: whatever the URL and however the transport fails in both
phases, the probe returns normally (its body yields a `ProbeResult`, no
exception escapes), the result is invalid, and the error is reflected in
the reason field (either the URL gate's message or the GET phase's
transport-failure message). -/
theorem claim_C6_no_escape (p : ParsedUrl) (net : Network) (cp : Bool)
    (e₁ e₂ : ExnKind) (h₁ : net.head = .error e₁)
    (h₂ : net.get = .error e₂) :
    probe_body p net cp =
      Except.ok (is_valid_stream p net cp, probe_ops p net cp) ∧
    (is_valid_stream p net cp).valid = false ∧
    ((is_valid_stream p net cp).reason = "Invalid URL format" ∨
      (is_valid_stream p net cp).reason
        = "GET request failed: " ++ exnStr e₂) := by
  refine ⟨probe_body_ok p net cp, ?_, ?_⟩
  · by_cases hv : is_valid_url p = true
    · have hhead : (check_with_head net).1 = false := by
        simp [check_with_head, h₁]
      have hget : (check_with_get net cp).1.1 = false := by
        simp [check_with_get, h₂]
      simp [is_valid_stream, probe_body, hv, hhead, hget]
    · have hv2 : is_valid_url p = false := by simpa using hv
      simp [is_valid_stream, probe_body, hv2]
  · by_cases hv : is_valid_url p = true
    · right
      have hhead : (check_with_head net).1 = false := by
        simp [check_with_head, h₁]
      simp [is_valid_stream, probe_body, check_with_get, hv, hhead, h₂]
    · left
      have hv2 : is_valid_url p = false := by simpa using hv
      simp [is_valid_stream, probe_body, hv2]

theorem claim_C6_no_escape_witness :
    probe_body urlHttp netAllErr true =
      Except.ok (is_valid_stream urlHttp netAllErr true,
        probe_ops urlHttp netAllErr true) ∧
    (is_valid_stream urlHttp netAllErr true).valid = false ∧
    ((is_valid_stream urlHttp netAllErr true).reason = "Invalid URL format" ∨
      (is_valid_stream urlHttp netAllErr true).reason
        = "GET request failed: " ++ exnStr (.connectionError "connection refused")) :=
  claim_C6_no_escape urlHttp netAllErr true (.timeout "timed out")
    (.connectionError "connection refused") rfl rfl

/-- Claim C7: the batch check maps exactly the input URLs — a URL is
absent from the result dictionary precisely when it was absent from the
input; every input URL maps to its future's entry; and a URL whose probe
raises during scheduling or exceeds the `timeout + 5` deadline maps to a
synthetic failing result whose reason starts with "Check failed: ",
rather than being dropped. -/
theorem claim_C7_batch (timeout : Nat) (urls : List ParsedUrl)
    (b : BatchBehavior) (cp : Bool) (u : ParsedUrl) :
    (dlookup (check_multiple_streams timeout urls b cp) u = none ↔
      u ∉ urls) ∧
    (u ∈ urls →
      dlookup (check_multiple_streams timeout urls b cp) u
        = some (future_entry timeout b cp u)) ∧
    (u ∈ urls → (b.raiseOf u ≠ none ∨ timeout + 5 < b.timeOf u) →
      ∃ r, dlookup (check_multiple_streams timeout urls b cp) u = some r ∧
        r.valid = false ∧ ∃ m, r.reason = "Check failed: " ++ m) := by
  have hl := check_multiple_lookup timeout b cp u urls []
  rw [check_multiple_streams]
  refine ⟨?_, ?_, ?_⟩
  · rw [hl]
    by_cases hm : u ∈ urls <;> simp [hm, dlookup]
  · intro hm
    rw [hl, if_pos hm]
  · intro hm hfail
    have hcf : ∃ m, future_entry timeout b cp u = check_failed m := by
      unfold future_entry
      rcases hro : b.raiseOf u with _ | m
      · rcases hfail with hf | hf
        · exact absurd hro hf
        · exact ⟨"", by rw [if_neg (by omega)]⟩
      · exact ⟨m, rfl⟩
    obtain ⟨m, hm2⟩ := hcf
    exact ⟨future_entry timeout b cp u, by rw [hl, if_pos hm],
      by simp [hm2, check_failed], m, by simp [hm2, check_failed]⟩

theorem claim_C7_batch_witness :
    ∃ r, dlookup
        (check_multiple_streams 10 [urlHttp, urlSlow, urlBad] bbFix true)
        urlSlow = some r ∧
      r.valid = false ∧ ∃ m, r.reason = "Check failed: " ++ m :=
  (claim_C7_batch 10 [urlHttp, urlSlow, urlBad] bbFix true urlSlow).2.2
    (by decide) (Or.inr (by decide))

/-- Claim C8, counterexample: an unchanged endpoint carrying both ICY
headers and Content-Type `audio/mpeg` on either verb is classified
"Audio stream" by a probe that succeeds via HEAD, but "ICY/Shoutcast
stream" by a probe that falls through to GET (the server rejecting HEAD
with 405) — `stream_kind` differs between the two runs, not only the
reason text, because the two phases test ICY and Content-Type in
opposite orders. -/
theorem claim_C8_counterexample :
    (is_valid_stream urlHttp netIcyAudioHead true).valid = true ∧
    (is_valid_stream urlHttp netIcyAudioGet true).valid = true ∧
    (is_valid_stream urlHttp netIcyAudioHead true).stream_type
      = some "Audio stream" ∧
    (is_valid_stream urlHttp netIcyAudioGet true).stream_type
      = some "ICY/Shoutcast stream" ∧
    (is_valid_stream urlHttp netIcyAudioHead true).stream_type
      ≠ (is_valid_stream urlHttp netIcyAudioGet true).stream_type := by
  refine ⟨?_, ?_, ?_, ?_, ?_⟩ <;> decide

/-- Claim C8, amended: for an unchanged valid endpoint that does not carry
both an ICY header and a recognized Content-Type at once, a probe
succeeding via HEAD and a probe falling through to GET (HEAD rejected,
same headers on GET, live non-markup data) agree on both `valid` and
`stream_kind`; only the reason wording may differ. -/
theorem claim_C8_amended (p : ParsedUrl) (net₁ net₂ : Network)
    (ct : String) (iN iM : Bool) (r₂ : Response) (chunk : List Nat)
    (hp : is_valid_url p = true)
    (hh₁ : net₁.head = .ok { status := 200, contentType := ct,
                             icyName := iN, icyMetaint := iM })
    (hh₂ : net₂.head = .ok r₂) (hns : r₂.status ≠ 200)
    (hg₂ : net₂.get = .ok { status := 200, contentType := ct,
                            icyName := iN, icyMetaint := iM })
    (hr₂ : net₂.read = .ok chunk) (hne : chunk ≠ [])
    (hmk : rejects_markup chunk = false)
    (hx : ((iN || iM) = true ∧ content_type_matches (strLower ct) = false)
        ∨ ((iN || iM) = false ∧ content_type_matches (strLower ct) = true)) :
    (is_valid_stream p net₁ true).valid = true ∧
    (is_valid_stream p net₂ true).valid = true ∧
    (is_valid_stream p net₁ true).stream_type
      = (is_valid_stream p net₂ true).stream_type := by
  have hhead₂ : (check_with_head net₂).1 = false := by
    simp [check_with_head, hh₂, hns]
  have hv : verify_stream_data net₂.read = true := by
    rw [hr₂]
    cases chunk with
    | nil => exact absurd rfl hne
    | cons a t => simp [verify_stream_data, hmk]
  rcases hx with ⟨hi, hm⟩ | ⟨hi, hm⟩
  · have e₁ : is_valid_stream p net₁ true =
        { valid := true, reason := "Valid ICY stream",
          content_type := some (strLower ct), status_code := some 200,
          stream_type := some "ICY/Shoutcast stream" } := by
      simp [is_valid_stream, probe_body, check_with_head, hasIcy, hp, hh₁,
        hi, hm]
    have e₂ : is_valid_stream p net₂ true =
        { valid := true, reason := "Valid ICY stream",
          content_type := some (strLower ct), status_code := some 200,
          stream_type := some "ICY/Shoutcast stream" } := by
      simp [is_valid_stream, probe_body, check_with_get, hasIcy, hp,
        hhead₂, hg₂, hi, hm, hv]
    rw [e₁, e₂]
    exact ⟨rfl, rfl, rfl⟩
  · have e₁ : is_valid_stream p net₁ true =
        { valid := true, reason := "Valid stream (HEAD check)",
          content_type := some (strLower ct), status_code := some 200,
          stream_type := some (categorize_stream (strLower ct)) } := by
      simp [is_valid_stream, probe_body, check_with_head, hasIcy, hp, hh₁,
        hi, hm]
    have e₂ : is_valid_stream p net₂ true =
        { valid := true, reason := "Valid and active stream",
          content_type := some (strLower ct), status_code := some 200,
          stream_type := some (categorize_stream (strLower ct)) } := by
      simp [is_valid_stream, probe_body, check_with_get, hasIcy, hp,
        hhead₂, hg₂, hi, hm, hv]
    rw [e₁, e₂]
    exact ⟨rfl, rfl, rfl⟩

theorem claim_C8_amended_witness :
    (is_valid_stream urlHttp netHeadAudio true).valid = true ∧
    (is_valid_stream urlHttp netGetAudioOk true).valid = true ∧
    (is_valid_stream urlHttp netHeadAudio true).stream_type
      = (is_valid_stream urlHttp netGetAudioOk true).stream_type :=
  claim_C8_amended urlHttp netHeadAudio netGetAudioOk "audio/mpeg"
    false false
    { status := 404, contentType := "", icyName := false, icyMetaint := false }
    [73, 68, 51] (by decide) rfl rfl (by decide) rfl rfl (by decide)
    (by decide) (Or.inr ⟨rfl, by decide⟩)

/-- Claim C9: when the GET phase sees a 200 response with a recognized
Content-Type but the data sniff fails, the probe fails with reason
"Stream not providing data" while retaining the fields populated from the
headers stage: status 200, the lower-cased Content-Type, and the derived
stream kind. -/
theorem claim_C9_sniff_retains (p : ParsedUrl) (net : Network) (ct : String)
    (hp : is_valid_url p = true)
    (hhead : (check_with_head net).1 = false)
    (hg : net.get = .ok { status := 200, contentType := ct,
                          icyName := false, icyMetaint := false })
    (hm : content_type_matches (strLower ct) = true)
    (hv : verify_stream_data net.read = false) :
    is_valid_stream p net true =
      { valid := false, reason := "Stream not providing data",
        content_type := some (strLower ct), status_code := some 200,
        stream_type := some (categorize_stream (strLower ct)) } := by
  simp [is_valid_stream, probe_body, check_with_get, hasIcy, hp, hhead,
    hg, hm, hv]

theorem claim_C9_sniff_retains_witness :
    is_valid_stream urlHttp netSniffFail true =
      { valid := false, reason := "Stream not providing data",
        content_type := some "audio/mpeg", status_code := some 200,
        stream_type := some "Audio stream" } := by
  have h := claim_C9_sniff_retains urlHttp netSniffFail "audio/mpeg"
    (by decide) (by decide) rfl (by decide) (by decide)
  rw [h]
  decide

/-- Claim C10: every result the probe produces, and every value of the
batch mapping, is one `ProbeResult` record (the five fields `valid`,
`reason`, `content_type`, `status_code`, `stream_type`, with `valid` a
`Bool`, are its type); and whenever `valid` is true the stream kind is
present. -/
theorem claim_C10_invariant (p : ParsedUrl) (net : Network) (cp : Bool)
    (timeout : Nat) (urls : List ParsedUrl) (b : BatchBehavior)
    (u : ParsedUrl) (r : ProbeResult) :
    ((is_valid_stream p net cp).valid = true →
      (is_valid_stream p net cp).stream_type.isSome = true) ∧
    (dlookup (check_multiple_streams timeout urls b cp) u = some r →
      r.valid = true → r.stream_type.isSome = true) := by
  have main : ∀ (p₂ : ParsedUrl) (net₂ : Network),
      (is_valid_stream p₂ net₂ cp).valid = true →
      (is_valid_stream p₂ net₂ cp).stream_type.isSome = true := by
    intro p₂ net₂ hval
    by_cases hu : is_valid_url p₂ = true
    · by_cases hh : (check_with_head net₂).1 = true
      · simp [is_valid_stream, probe_body, hu, hh]
        exact head_success_stream_type net₂ hh
      · have hh₂ : (check_with_head net₂).1 = false := by simpa using hh
        simp [is_valid_stream, probe_body, hu, hh₂] at hval ⊢
        exact get_success_stream_type net₂ cp hval
    · have hu₂ : is_valid_url p₂ = false := by simpa using hu
      simp [is_valid_stream, probe_body, hu₂] at hval
  refine ⟨main p net, ?_⟩
  intro hlk hval
  have hl := check_multiple_lookup timeout b cp u urls []
  rw [check_multiple_streams, hl] at hlk
  by_cases hm : u ∈ urls
  · rw [if_pos hm] at hlk
    have hfe : future_entry timeout b cp u = r := Option.some.inj hlk
    rw [← hfe] at hval ⊢
    rcases hro : b.raiseOf u with _ | m <;>
      simp only [future_entry, hro] at hval ⊢
    · split_ifs at hval ⊢ with hT
      · exact main u (b.netOf u) hval
      · exact absurd hval (by simp [check_failed])
    · exact absurd hval (by simp [check_failed])
  · rw [if_neg hm] at hlk
    exact Option.noConfusion hlk

theorem claim_C10_invariant_witness :
    (is_valid_stream urlHttp netHeadAudio true).stream_type.isSome = true ∧
    ({ valid := true, reason := "Valid stream (HEAD check)",
       content_type := some "audio/mpeg", status_code := some 200,
       stream_type := some "Audio stream" } :
        ProbeResult).stream_type.isSome = true := by
  constructor
  · exact (claim_C10_invariant urlHttp netHeadAudio true 10 [urlHttp] bbFix
      urlHttp
      { valid := false, reason := "", content_type := none,
        status_code := none, stream_type := none }).1 (by decide)
  · exact (claim_C10_invariant urlHttp netHeadAudio true 10 [urlHttp] bbFix
      urlHttp
      { valid := true, reason := "Valid stream (HEAD check)",
        content_type := some "audio/mpeg", status_code := some 200,
        stream_type := some "Audio stream" }).2 (by decide) (by decide)

end StreamChecker
